import Mathlib

/-!
Verification of the require-service consistency-and-aggregation layer.

The HTTP handlers (`internal/handler/http`) are embedded directly from the Go
source.  The service/repository layer (Analytic Lifecycle Manager, Category
Store Adapter, Role-Gated Projection Builder) is not part of the provided
sources, so those operations are modelled from the specification, as marked
in their doc comments.
-/

namespace RequireService

/-- Error taxonomy of spec section 7 (mirrors the `repository.Err*` values). -/
inductive ErrKind
  | categoryAlreadyExists
  | categoryNotFound
  | postNotFound
  | postIDAlreadyExists
  | analyticNotFound
  | analyticDependencyNotFound
  | emptyUpdate
  | missingRole
  | unexpected
  deriving DecidableEq, Repr

/-- Modelled from the spec: an Analytic record (section 3) — a surrogate id,
a PostID foreign key, and numeric metric fields (the spec names them `a` and
`b` in its merge-semantics example). -/
structure Analytic where
  id : Int
  postID : Int
  a : Int
  b : Int
  deriving DecidableEq, Repr

/-- Modelled from the spec: `AnalyticUpdate` (section 3), a partial projection
of `Analytic` where every field is optional (tri-state: unset / set-to-value). -/
structure AnalyticUpdate where
  postID : Option Int
  a : Option Int
  b : Option Int
  deriving DecidableEq, Repr

/-- `models.AnalyticUpdate.IsEmpty` — modelled from the spec (section 4.4):
an update is empty iff every optional field is unset. -/
def AnalyticUpdate.IsEmpty (u : AnalyticUpdate) : Bool :=
  u.postID.isNone && u.a.isNone && u.b.isNone

/-- Modelled from the spec: a per-word statistic belonging to a Post
(section 3, `AnalyticWithWords`). -/
structure Word where
  text : String
  count : Int
  restricted : Bool
  deriving DecidableEq, Repr

/-- Modelled from the spec: the read-only composite of an Analytic and the
word-level statistics of its Post (section 3). -/
structure AnalyticWithWords where
  analytic : Analytic
  words : List Word
  deriving DecidableEq, Repr

/-- Modelled from the spec: the persistence state seen by the Analytic
Lifecycle Manager — the set of existing PostIDs (the external Post
collaborator, read through the Post Reference Resolver) and the stored
Analytic records, plus the word statistics keyed by PostID. -/
structure AnalyticState where
  posts : List Int
  analytics : List Analytic
  postWords : List (Int × Word)
  deriving DecidableEq, Repr

/-- Whether an Analytic record for the given PostID is stored. -/
def hasAnalyticFor (s : AnalyticState) (pid : Int) : Bool :=
  s.analytics.any (fun x => x.postID == pid)

/-- `PostExists` of the Post Reference Resolver (spec section 4.2). -/
def postExists (s : AnalyticState) (pid : Int) : Bool :=
  s.posts.contains pid

/-- Modelled from the spec: `AddAnalytic` (section 4.3) — duplicate-PostID
check first, dependency-existence check second, then persist. Returns the
outcome and the resulting state. -/
def AddAnalytic (s : AnalyticState) (x : Analytic) :
    Except ErrKind Analytic × AnalyticState :=
  if hasAnalyticFor s x.postID then
    (.error .postIDAlreadyExists, s)
  else if !postExists s x.postID then
    (.error .analyticDependencyNotFound, s)
  else
    (.ok x, { s with analytics := x :: s.analytics })

/-- Merge semantics of a partial update (spec section 4.3 step 4): only the
fields present in the update are applied; absent fields keep their value. -/
def applyUpdate (x : Analytic) (u : AnalyticUpdate) : Analytic :=
  { x with
    postID := u.postID.getD x.postID
    a := u.a.getD x.a
    b := u.b.getD x.b }

/-- Modelled from the spec: `UpdateAnalytic` (section 4.3) — reject an empty
update first, then `AnalyticNotFound` on a missing id, then (only if the
PostID changes) re-run the duplicate and dependency checks, then persist the
merged record. -/
def UpdateAnalytic (s : AnalyticState) (i : Int) (u : AnalyticUpdate) :
    Except ErrKind Analytic × AnalyticState :=
  if u.IsEmpty then
    (.error .emptyUpdate, s)
  else
    match s.analytics.find? (fun x => x.id == i) with
    | none => (.error .analyticNotFound, s)
    | some x =>
      if (applyUpdate x u).postID != x.postID then
        if hasAnalyticFor s (applyUpdate x u).postID then
          (.error .postIDAlreadyExists, s)
        else if !postExists s (applyUpdate x u).postID then
          (.error .analyticDependencyNotFound, s)
        else
          (.ok (applyUpdate x u),
           { s with analytics := s.analytics.map (fun y => if y.id == i then applyUpdate x u else y) })
      else
        (.ok (applyUpdate x u),
         { s with analytics := s.analytics.map (fun y => if y.id == i then applyUpdate x u else y) })

/-- Modelled from the spec: `DeleteAnalytic` (section 4.3) — fails with
`AnalyticNotFound` if no Analytic with that id exists, otherwise removes it. -/
def DeleteAnalytic (s : AnalyticState) (i : Int) :
    Except ErrKind Unit × AnalyticState :=
  if s.analytics.any (fun x => x.id == i) then
    (.ok (), { s with analytics := s.analytics.filter (fun x => x.id != i) })
  else
    (.error .analyticNotFound, s)

/-- Modelled from the spec: role-based shaping of the word-level breakdown
(section 4.5): a privileged role receives the full per-word table, a
restricted role receives the redacted table. The exact policy is external
configuration; only the mechanism (role shapes the projection) is contractual. -/
def shapeWords (role : String) (ws : List Word) : List Word :=
  if role == "admin" then ws else ws.filter (fun w => !w.restricted)

/-- Modelled from the spec: `GetAnalyticWithWords` of the Role-Gated
Projection Builder (section 4.5) — fails with `AnalyticNotFound` if the Post
has no Analytic, otherwise returns the Analytic merged with its role-shaped
word statistics. -/
def GetAnalyticWithWords (s : AnalyticState) (pid : Int) (role : String) :
    Except ErrKind (List AnalyticWithWords) :=
  match s.analytics.find? (fun x => x.postID == pid) with
  | none => .error .analyticNotFound
  | some x =>
    .ok [{ analytic := x
           words := shapeWords role ((s.postWords.filter (fun pw => pw.1 == pid)).map (·.2)) }]

/-! ## Transport layer (embedded from `internal/handler/http`) -/

/-- `strconv.Atoi` from the Go standard library, as used by the handlers:
returns the parsed value and a success flag (`true` iff the error was nil).
On a syntax error the returned value is `0`; on a range error it is the
nearest representable 64-bit integer. The handlers discard the flag. -/
def atoi (s : String) : Int × Bool :=
  let parse (sign : Int) (ds : List Char) : Int × Bool :=
    if ds.isEmpty || !ds.all Char.isDigit then (0, false)
    else
      let v : Int := sign * (ds.foldl (fun n c => n * 10 + (c.toNat - 48)) 0 : Nat)
      if v > 2 ^ 63 - 1 then (2 ^ 63 - 1, false)
      else if v < -(2 ^ 63) then (-(2 ^ 63), false)
      else (v, true)
  match s.data with
  | [] => (0, false)
  | c :: rest =>
    if c = '-' then parse (-1) rest
    else if c = '+' then parse 1 rest
    else parse 1 (c :: rest)

/-- A value stored in the gin context key map (`c.Keys`): either a Go
`string` or a value of some other dynamic type. -/
inductive CtxVal
  | str (s : String)
  | other (tag : Nat)
  deriving DecidableEq, Repr

/-- An HTTP response as produced by the analytic handlers: the status code,
the error kind carried in the `errorResponse` body (`none` on success), and
whether `h.log.Error` was called while producing it. -/
structure Resp where
  status : Nat
  err : Option ErrKind
  logged : Bool
  deriving DecidableEq, Repr

/-- The observable outcome of one handler invocation: the response, whether
`h.srv` was invoked, and the persistence state afterwards — or a Go runtime
panic (from a failed type assertion). -/
inductive HOut
  | resp (r : Resp) (srvCalled : Bool) (state : AnalyticState)
  | panicked
  deriving DecidableEq, Repr

/-- Status-code/logging mapping of the `addAnalytic` handler's `switch` on
the service error (part_000 lines 32-43). -/
def addAnalyticErrResp (e : ErrKind) : Resp :=
  match e with
  | .postIDAlreadyExists => { status := 400, err := some e, logged := false }
  | .analyticDependencyNotFound => { status := 409, err := some e, logged := false }
  | _ => { status := 500, err := some e, logged := true }

/-- `addAnalytic` handler (part_000 lines 24-46): bind the body, call
`srv.AddAnalytic`, map errors per the `switch`, or answer 200 with the
stored record. `body = none` models a `BindJSON` failure. -/
def addAnalyticHandler (s : AnalyticState) (body : Option Analytic) : HOut :=
  match body with
  | none => .resp { status := 400, err := none, logged := false } false s
  | some x =>
    match AddAnalytic s x with
    | (.error e, s') => .resp (addAnalyticErrResp e) true s'
    | (.ok _, s') => .resp { status := 200, err := none, logged := false } true s'

/-- Status-code/logging mapping of the `updateAnalytic` handler's `switch`
on the service error (part_000 lines 76-90). -/
def updateAnalyticErrResp (e : ErrKind) : Resp :=
  match e with
  | .postIDAlreadyExists => { status := 400, err := some e, logged := false }
  | .analyticNotFound => { status := 404, err := some e, logged := false }
  | .analyticDependencyNotFound => { status := 409, err := some e, logged := false }
  | _ => { status := 500, err := some e, logged := true }

/-- `updateAnalytic` handler after the id has been read (part_000 lines
64-93): bind the body, reject an empty update with 400 before calling the
service, then call `srv.UpdateAnalytic` and map errors per the `switch`. -/
def updateAnalyticCore (s : AnalyticState) (i : Int) (body : Option AnalyticUpdate) : HOut :=
  match body with
  | none => .resp { status := 400, err := none, logged := false } false s
  | some u =>
    if u.IsEmpty then
      .resp { status := 400, err := some .emptyUpdate, logged := false } false s
    else
      match UpdateAnalytic s i u with
      | (.error e, s') => .resp (updateAnalyticErrResp e) true s'
      | (.ok _, s') => .resp { status := 200, err := none, logged := false } true s'

/-- `updateAnalytic` handler (part_000 lines 61-93): `id, _ :=
strconv.Atoi(c.Param("id"))` — the parse error is discarded — then the core. -/
def updateAnalyticHandler (s : AnalyticState) (idParam : String)
    (body : Option AnalyticUpdate) : HOut :=
  updateAnalyticCore s (atoi idParam).1 body

/-- Status-code/logging mapping of the `deleteAnalytic` handler on the
service error (part_000 lines 107-113). -/
def deleteAnalyticErrResp (e : ErrKind) : Resp :=
  match e with
  | .analyticNotFound => { status := 404, err := some e, logged := false }
  | _ => { status := 500, err := some e, logged := true }

/-- `deleteAnalytic` handler after the id has been read (part_000 lines
106-115): `ErrAnalyticNotFound` maps to 404, any other error is logged and
maps to 500, success answers 204. -/
def deleteAnalyticCore (s : AnalyticState) (i : Int) : HOut :=
  match DeleteAnalytic s i with
  | (.error e, s') => .resp (deleteAnalyticErrResp e) true s'
  | (.ok _, s') => .resp { status := 204, err := none, logged := false } true s'

/-- `deleteAnalytic` handler (part_000 lines 103-116): the id parse error is
discarded, then the core. -/
def deleteAnalyticHandler (s : AnalyticState) (idParam : String) : HOut :=
  deleteAnalyticCore s (atoi idParam).1

/-- Status-code/logging mapping of the `getAnalyticWithWordsByPostID`
handler on the service error (part_000 lines 136-143). -/
def getAnalyticWithWordsErrResp (e : ErrKind) : Resp :=
  match e with
  | .analyticNotFound => { status := 404, err := some e, logged := false }
  | _ => { status := 500, err := some e, logged := true }

/-- `getAnalyticWithWordsByPostID` handler after the id has been read
(part_000 lines 129-146): missing `"role"` key answers 401 before any
service call; `role.(string)` is an unchecked type assertion that panics on
a non-string value; service errors map per `getAnalyticWithWordsErrResp`. -/
def getAnalyticWithWordsCore (s : AnalyticState) (i : Int)
    (keys : List (String × CtxVal)) : HOut :=
  match keys.lookup "role" with
  | none => .resp { status := 401, err := some .missingRole, logged := false } false s
  | some (.other _) => .panicked
  | some (.str role) =>
    match GetAnalyticWithWords s i role with
    | .error e => .resp (getAnalyticWithWordsErrResp e) true s
    | .ok _ => .resp { status := 200, err := none, logged := false } true s

/-- `getAnalyticWithWordsByPostID` handler (part_000 lines 127-147): the id
parse error is discarded, then the core. -/
def getAnalyticWithWordsHandler (s : AnalyticState) (idParam : String)
    (keys : List (String × CtxVal)) : HOut :=
  getAnalyticWithWordsCore s (atoi idParam).1 keys

/-! ## Category side (handlers from `category.go`; services spec-modelled) -/

/-- Modelled from the spec: a Post (section 3) — unique identifier, owning
Category referenced by title, and a visibility flag. -/
structure Post where
  id : Int
  category : String
  isPublic : Bool
  deriving DecidableEq, Repr

/-- Modelled from the spec: the state seen by the Category Store Adapter and
the Projection Builder — Category titles and the external Post collection. -/
structure CatState where
  categories : List String
  catPosts : List Post
  deriving DecidableEq, Repr

/-- Modelled from the spec: `AddCategory` (section 4.1) — fails with
`CategoryAlreadyExists` if the title is already present, else inserts. -/
def AddCategory (s : CatState) (title : String) :
    Except ErrKind String × CatState :=
  if s.categories.contains title then
    (.error .categoryAlreadyExists, s)
  else
    (.ok title, { s with categories := title :: s.categories })

/-- Modelled from the spec: `GetAllCategories` (section 4.1) — fails with
`CategoryNotFound` when the store is empty, else returns all Categories. -/
def GetAllCategories (s : CatState) : Except ErrKind (List String) :=
  if s.categories.isEmpty then .error .categoryNotFound else .ok s.categories

/-- Modelled from the spec: grouping of Posts under their Category titles
(section 4.5) — every Category in the result exists in the store; a Post
whose Category reference is stale is excluded. -/
def groupByCategory (cats : List String) (ps : List Post) :
    List (String × List Post) :=
  cats.map (fun t => (t, ps.filter (fun p => p.category == t)))

/-- Modelled from the spec: `GetCategoriesWithPublicPosts` (section 4.5) —
fails with `PostNotFound` if no public Posts exist at all, else returns the
Category-title-to-public-Posts mapping. -/
def GetCategoriesWithPublicPosts (s : CatState) :
    Except ErrKind (List (String × List Post)) :=
  let pub := s.catPosts.filter (fun p => p.isPublic)
  if pub.isEmpty then .error .postNotFound
  else .ok (groupByCategory s.categories pub)

/-- Outcome of a category handler: response and resulting state. -/
structure CatOut where
  r : Resp
  srvCalled : Bool
  state : CatState
  deriving DecidableEq, Repr

/-- Status-code/logging mapping of the `addCategory` handler on the service
error (category.go lines 99-107). -/
def addCategoryErrResp (e : ErrKind) : Resp :=
  match e with
  | .categoryAlreadyExists => { status := 409, err := some e, logged := false }
  | _ => { status := 500, err := some e, logged := true }

/-- `addCategory` handler (category.go lines 91-111): bind the body, call
`srv.AddCategory`, map errors per `addCategoryErrResp`, answer 201 on
success. -/
def addCategoryHandler (s : CatState) (body : Option String) : CatOut :=
  match body with
  | none => ⟨{ status := 400, err := none, logged := false }, false, s⟩
  | some title =>
    match AddCategory s title with
    | (.error e, s') => ⟨addCategoryErrResp e, true, s'⟩
    | (.ok _, s') => ⟨{ status := 201, err := none, logged := false }, true, s'⟩

/-- Status-code/logging mapping of the `getAllCategories` handler on the
service error (category.go lines 68-76). -/
def getAllCategoriesErrResp (e : ErrKind) : Resp :=
  match e with
  | .categoryNotFound => { status := 404, err := some e, logged := false }
  | _ => { status := 500, err := some e, logged := true }

/-- `getAllCategories` handler (category.go lines 66-78): `ErrCategoryNotFound`
maps to 404 without logging, any other error is logged and maps to 500. -/
def getAllCategoriesHandler (s : CatState) : CatOut :=
  match GetAllCategories s with
  | .error e => ⟨getAllCategoriesErrResp e, true, s⟩
  | .ok _ => ⟨{ status := 200, err := none, logged := false }, true, s⟩

/-- Status-code/logging mapping of the `getCategoriesWithPublicPosts`
handler on the service error (category.go lines 22-29). -/
def getCategoriesWithPublicPostsErrResp (e : ErrKind) : Resp :=
  match e with
  | .postNotFound => { status := 404, err := some e, logged := false }
  | _ => { status := 500, err := some e, logged := true }

/-- `getCategoriesWithPublicPosts` handler (category.go lines 20-33):
`ErrPostNotFound` maps to 404 without logging, any other error is logged and
maps to 500. -/
def getCategoriesWithPublicPostsHandler (s : CatState) : CatOut :=
  match GetCategoriesWithPublicPosts s with
  | .error e => ⟨getCategoriesWithPublicPostsErrResp e, true, s⟩
  | .ok _ => ⟨{ status := 200, err := none, logged := false }, true, s⟩

/-! ## Operation traces (for the one-Analytic-per-Post invariant) -/

/-- A mutating operation of the Analytic lifecycle, as issued by clients
between a successful `AddAnalytic` and a corresponding delete. -/
inductive Op
  | add (x : Analytic)
  | del (i : Int)
  deriving DecidableEq, Repr

/-- State transition of one operation (the outcome is discarded). -/
def stepOp (s : AnalyticState) : Op → AnalyticState
  | .add x => (AddAnalytic s x).2
  | .del i => (DeleteAnalytic s i).2

/-- Run a sequence of operations from a state. -/
def runOps (s : AnalyticState) : List Op → AnalyticState
  | [] => s
  | op :: ops => runOps (stepOp s op) ops

/-- `op` is not a "corresponding delete" for PostID `pid` in state `s`:
it does not delete the stored Analytic record whose PostID is `pid`. -/
def keepsAnalyticFor (pid : Int) (s : AnalyticState) : Op → Bool
  | .add _ => true
  | .del i => !(s.analytics.any (fun x => x.id == i && x.postID == pid))

/-- No operation of the trace deletes the Analytic for `pid`. -/
def noRemoval (pid : Int) (s : AnalyticState) : List Op → Bool
  | [] => true
  | op :: ops => keepsAnalyticFor pid s op && noRemoval pid (stepOp s op) ops

/-! ## Lemmas about the Analytic lifecycle -/

theorem AddAnalytic_of_has (s : AnalyticState) (y : Analytic)
    (h : hasAnalyticFor s y.postID = true) :
    AddAnalytic s y = (.error .postIDAlreadyExists, s) := by
  simp [AddAnalytic, h]

theorem hasAnalyticFor_after_ok (s : AnalyticState) (x r : Analytic)
    (s₁ : AnalyticState) (h : AddAnalytic s x = (.ok r, s₁)) :
    hasAnalyticFor s₁ x.postID = true := by
  unfold AddAnalytic at h
  split at h
  · simp at h
  · split at h
    · simp at h
    · simp only [Prod.mk.injEq] at h
      rw [← h.2]
      simp [hasAnalyticFor]

theorem hasAnalyticFor_stepOp (pid : Int) (s : AnalyticState) (op : Op)
    (h : hasAnalyticFor s pid = true) (hk : keepsAnalyticFor pid s op = true) :
    hasAnalyticFor (stepOp s op) pid = true := by
  cases op with
  | add x =>
    show hasAnalyticFor (AddAnalytic s x).2 pid = true
    unfold AddAnalytic
    split
    · exact h
    · split
      · exact h
      · simp only [hasAnalyticFor, List.any_cons, Bool.or_eq_true]
        exact Or.inr h
  | del i =>
    show hasAnalyticFor (DeleteAnalytic s i).2 pid = true
    unfold DeleteAnalytic
    split
    · simp only [keepsAnalyticFor, Bool.not_eq_true', List.any_eq_false,
        Bool.and_eq_true, not_and] at hk
      simp only [hasAnalyticFor, List.any_eq_true] at h ⊢
      obtain ⟨y, hmem, hpid⟩ := h
      refine ⟨y, List.mem_filter.mpr ⟨hmem, ?_⟩, hpid⟩
      have : ¬((y.id == i) = true) := fun hid => by
        have := hk y hmem
        rw [hid, hpid] at this
        simp at this
      simp [bne, Bool.not_eq_true] at this ⊢
      exact this
    · exact h

theorem hasAnalyticFor_runOps (pid : Int) (s : AnalyticState) (ops : List Op)
    (h : hasAnalyticFor s pid = true) (hn : noRemoval pid s ops = true) :
    hasAnalyticFor (runOps s ops) pid = true := by
  induction ops generalizing s with
  | nil => exact h
  | cons op ops ih =>
    simp only [noRemoval, Bool.and_eq_true] at hn
    exact ih (stepOp s op) (hasAnalyticFor_stepOp pid s op h hn.1) hn.2

/-! ## Claims -/

/-- C1: at most one Analytic record exists per PostID — after a successful
`AddAnalytic` with PostID `x.postID`, every subsequent `AddAnalytic` with
the same PostID, issued after any trace of operations none of which deletes
the Analytic for that PostID, fails with `PostIDAlreadyExists` and leaves
the state unchanged (no second record is persisted). -/
theorem addAnalytic_one_per_post (s : AnalyticState) (x r : Analytic)
    (s₁ : AnalyticState) (hadd : AddAnalytic s x = (.ok r, s₁))
    (ops : List Op) (hops : noRemoval x.postID s₁ ops = true)
    (y : Analytic) (hy : y.postID = x.postID) :
    AddAnalytic (runOps s₁ ops) y = (.error .postIDAlreadyExists, runOps s₁ ops) := by
  have h1 : hasAnalyticFor s₁ x.postID = true := hasAnalyticFor_after_ok s x r s₁ hadd
  have h2 := hasAnalyticFor_runOps x.postID s₁ ops h1 hops
  exact AddAnalytic_of_has (runOps s₁ ops) y (by rw [hy]; exact h2)

/-- Witness for C1: a concrete successful add of PostID 5, followed by an
unrelated delete, after which a second add of PostID 5 fails. -/
theorem addAnalytic_one_per_post_witness :
    AddAnalytic (runOps ⟨[5], [⟨1, 5, 0, 0⟩], []⟩ [Op.del 2]) ⟨3, 5, 9, 9⟩ =
      (.error .postIDAlreadyExists, runOps ⟨[5], [⟨1, 5, 0, 0⟩], []⟩ [Op.del 2]) :=
  addAnalytic_one_per_post ⟨[5], [], []⟩ ⟨1, 5, 0, 0⟩ ⟨1, 5, 0, 0⟩
    ⟨[5], [⟨1, 5, 0, 0⟩], []⟩ rfl [Op.del 2] rfl ⟨3, 5, 9, 9⟩ rfl

/-- A state in which an Analytic for PostID 5 is stored although Post 5 no
longer exists (the Post was removed by the external Post collaborator). -/
def staleState : AnalyticState := ⟨[], [⟨1, 5, 1, 2⟩], []⟩

/-- C2 counterexample: `AddAnalytic` with a PostID that does not resolve to
an existing Post does NOT always yield `AnalyticDependencyNotFound` — when
an Analytic already exists for that PostID the duplicate check fires first
and the result is `PostIDAlreadyExists`. -/
theorem addAnalytic_dependency_ordering_counterexample :
    postExists staleState 5 = false ∧
    AddAnalytic staleState ⟨2, 5, 0, 0⟩ = (.error .postIDAlreadyExists, staleState) ∧
    ErrKind.postIDAlreadyExists ≠ ErrKind.analyticDependencyNotFound :=
  ⟨rfl, rfl, by decide⟩

/-- C2 amended: the duplicate check is applied before the dependency check —
a PostID that already has an Analytic yields `PostIDAlreadyExists` regardless
of Post existence, and a PostID with no Analytic that does not resolve to an
existing Post yields `AnalyticDependencyNotFound`; both leave the state
unchanged. -/
theorem addAnalytic_dependency_ordering (s : AnalyticState) (x : Analytic) :
    (hasAnalyticFor s x.postID = true →
      AddAnalytic s x = (.error .postIDAlreadyExists, s)) ∧
    (hasAnalyticFor s x.postID = false → postExists s x.postID = false →
      AddAnalytic s x = (.error .analyticDependencyNotFound, s)) := by
  constructor
  · intro h
    simp [AddAnalytic, h]
  · intro h1 h2
    simp [AddAnalytic, h1, h2]

/-- Witness for the amended C2: both branches at concrete states. -/
theorem addAnalytic_dependency_ordering_witness :
    AddAnalytic staleState ⟨2, 5, 0, 0⟩ = (.error .postIDAlreadyExists, staleState) ∧
    AddAnalytic ⟨[], [], []⟩ ⟨1, 9, 0, 0⟩ =
      (.error .analyticDependencyNotFound, ⟨[], [], []⟩) :=
  ⟨(addAnalytic_dependency_ordering staleState ⟨2, 5, 0, 0⟩).1 rfl,
   (addAnalytic_dependency_ordering ⟨[], [], []⟩ ⟨1, 9, 0, 0⟩).2 rfl rfl⟩

/-- C3: an `UpdateAnalytic` request whose `AnalyticUpdate` has all optional
fields unset is rejected with a 400 client error before any lookup or
persistence call — the service is not invoked and the state is unchanged,
for every state (in particular whether or not the target id exists). -/
theorem updateAnalytic_empty_fail_fast (s : AnalyticState) (p : String)
    (u : AnalyticUpdate) (hp : u.postID = none) (ha : u.a = none)
    (hb : u.b = none) :
    updateAnalyticHandler s p (some u) =
      .resp { status := 400, err := some .emptyUpdate, logged := false } false s := by
  simp [updateAnalyticHandler, updateAnalyticCore, AnalyticUpdate.IsEmpty, hp, ha, hb]

/-- Witness for C3: the all-unset update is rejected fast on a state in
which no Analytic with the target id 7 exists. -/
theorem updateAnalytic_empty_fail_fast_witness :
    updateAnalyticHandler ⟨[], [], []⟩ "7" (some ⟨none, none, none⟩) =
      .resp { status := 400, err := some .emptyUpdate, logged := false } false ⟨[], [], []⟩ :=
  updateAnalytic_empty_fail_fast ⟨[], [], []⟩ "7" ⟨none, none, none⟩ rfl rfl rfl

/-- C4: merge semantics of partial updates — a field absent from the update
keeps its previous value, a field present is set to the supplied value, and
a successful `UpdateAnalytic` stores exactly the merge of the found record
with the update. -/
theorem updateAnalytic_merge (x : Analytic) (u : AnalyticUpdate) :
    ((u.postID = none → (applyUpdate x u).postID = x.postID) ∧
     (u.a = none → (applyUpdate x u).a = x.a) ∧
     (u.b = none → (applyUpdate x u).b = x.b) ∧
     (∀ v, u.postID = some v → (applyUpdate x u).postID = v) ∧
     (∀ v, u.a = some v → (applyUpdate x u).a = v) ∧
     (∀ v, u.b = some v → (applyUpdate x u).b = v)) ∧
    (∀ (s : AnalyticState) (i : Int) (x' : Analytic) (s' : AnalyticState),
      UpdateAnalytic s i u = (.ok x', s') →
      ∃ y, s.analytics.find? (fun z => z.id == i) = some y ∧
        x' = applyUpdate y u ∧ x' ∈ s'.analytics) := by
  constructor
  · exact ⟨fun h => by simp [applyUpdate, h], fun h => by simp [applyUpdate, h],
      fun h => by simp [applyUpdate, h], fun v h => by simp [applyUpdate, h],
      fun v h => by simp [applyUpdate, h], fun v h => by simp [applyUpdate, h]⟩
  · intro s i x' s' h
    unfold UpdateAnalytic at h
    split at h
    · simp at h
    · split at h
      · simp at h
      · rename_i y hf
        have hy : y ∈ s.analytics := List.mem_of_find?_eq_some hf
        have hyid : (y.id == i) = true := by
          have := List.find?_some hf
          simpa using this
        have hmem : applyUpdate y u ∈
            s.analytics.map (fun z => if z.id == i then applyUpdate y u else z) :=
          List.mem_map.mpr ⟨y, hy, by simp [hyid]⟩
        split at h
        · split at h
          · simp at h
          · split at h
            · simp at h
            · simp only [Prod.mk.injEq, Except.ok.injEq] at h
              exact ⟨y, hf, h.1.symm, by rw [← h.2, ← h.1]; exact hmem⟩
        · simp only [Prod.mk.injEq, Except.ok.injEq] at h
          exact ⟨y, hf, h.1.symm, by rw [← h.2, ← h.1]; exact hmem⟩

/-- Witness for C4: applying `AnalyticUpdate a := 9` (other fields unset) to
an Analytic with `a = 1, b = 2` yields `a = 9, b = 2` with the PostID kept,
and the stored record after a successful update is exactly that merge. -/
theorem updateAnalytic_merge_witness :
    (applyUpdate ⟨1, 5, 1, 2⟩ ⟨none, some 9, none⟩).a = 9 ∧
    (applyUpdate ⟨1, 5, 1, 2⟩ ⟨none, some 9, none⟩).b = 2 ∧
    (applyUpdate ⟨1, 5, 1, 2⟩ ⟨none, some 9, none⟩).postID = 5 ∧
    ∃ y, ((⟨[5], [⟨1, 5, 1, 2⟩], []⟩ : AnalyticState)).analytics.find?
          (fun z => z.id == 1) = some y ∧
      (⟨1, 5, 9, 2⟩ : Analytic) = applyUpdate y ⟨none, some 9, none⟩ ∧
      (⟨1, 5, 9, 2⟩ : Analytic) ∈
        (⟨[5], [⟨1, 5, 9, 2⟩], []⟩ : AnalyticState).analytics :=
  ⟨(updateAnalytic_merge ⟨1, 5, 1, 2⟩ ⟨none, some 9, none⟩).1.2.2.2.2.1 9 rfl,
   (updateAnalytic_merge ⟨1, 5, 1, 2⟩ ⟨none, some 9, none⟩).1.2.2.1 rfl,
   (updateAnalytic_merge ⟨1, 5, 1, 2⟩ ⟨none, some 9, none⟩).1.1 rfl,
   (updateAnalytic_merge ⟨1, 5, 1, 2⟩ ⟨none, some 9, none⟩).2
     ⟨[5], [⟨1, 5, 1, 2⟩], []⟩ 1 ⟨1, 5, 9, 2⟩ ⟨[5], [⟨1, 5, 9, 2⟩], []⟩ rfl⟩

/-- C5: a `GetAnalyticWithWords` request with no caller role in the request
context is answered 401 `MissingRole` before any service call, and an
`AnalyticNotFound` response can only arise when a (string) role is present. -/
theorem getAnalyticWithWords_missing_role :
    (∀ (s : AnalyticState) (p : String) (keys : List (String × CtxVal)),
        keys.lookup "role" = none →
        getAnalyticWithWordsHandler s p keys =
          .resp { status := 401, err := some .missingRole, logged := false } false s) ∧
    (∀ (s : AnalyticState) (p : String) (keys : List (String × CtxVal))
        (r : Resp) (c : Bool) (st : AnalyticState),
        getAnalyticWithWordsHandler s p keys = .resp r c st →
        r.err = some .analyticNotFound →
        ∃ role, keys.lookup "role" = some (.str role)) := by
  constructor
  · intro s p keys h
    simp [getAnalyticWithWordsHandler, getAnalyticWithWordsCore, h]
  · intro s p keys r c st h herr
    unfold getAnalyticWithWordsHandler getAnalyticWithWordsCore at h
    cases hk : keys.lookup "role" with
    | none =>
      rw [hk] at h
      simp only [HOut.resp.injEq] at h
      rw [← h.1] at herr
      simp at herr
    | some v =>
      cases v with
      | str role => exact ⟨role, rfl⟩
      | other t => rw [hk] at h; simp at h

/-- Witness for C5: a request with an empty context key map is answered 401,
and a 404 `AnalyticNotFound` response implies a string role was present. -/
theorem getAnalyticWithWords_missing_role_witness :
    getAnalyticWithWordsHandler ⟨[], [], []⟩ "1" [] =
      .resp { status := 401, err := some .missingRole, logged := false } false ⟨[], [], []⟩ ∧
    ∃ role, ([("role", CtxVal.str "user")].lookup "role") = some (.str role) :=
  ⟨getAnalyticWithWords_missing_role.1 ⟨[], [], []⟩ "1" [] rfl,
   getAnalyticWithWords_missing_role.2 ⟨[], [], []⟩ "1" [("role", CtxVal.str "user")]
     { status := 404, err := some .analyticNotFound, logged := false } true
     ⟨[], [], []⟩ rfl rfl⟩

/-- C6 counterexample: the duplicate error `PostIDAlreadyExists` is mapped
by `addAnalytic` to 400 Bad Request, not to the 409 conflict-class status
that `CategoryAlreadyExists` receives. -/
theorem conflict_status_counterexample :
    addAnalyticHandler ⟨[5], [⟨1, 5, 0, 0⟩], []⟩ (some ⟨2, 5, 3, 4⟩) =
      .resp { status := 400, err := some .postIDAlreadyExists, logged := false } true
        ⟨[5], [⟨1, 5, 0, 0⟩], []⟩ ∧
    (400 : Nat) ≠ 409 :=
  ⟨rfl, by decide⟩

/-- C6 amended: `CategoryAlreadyExists` maps to 409 Conflict while
`PostIDAlreadyExists` maps to 400 (client-error class, not conflict class);
not-found errors map to 404, an empty update to 400, a missing role to 401,
and anything unexpected to 500 with logging. -/
theorem transport_status_mapping :
    addCategoryErrResp .categoryAlreadyExists =
      { status := 409, err := some .categoryAlreadyExists, logged := false } ∧
    addAnalyticErrResp .postIDAlreadyExists =
      { status := 400, err := some .postIDAlreadyExists, logged := false } ∧
    updateAnalyticErrResp .postIDAlreadyExists =
      { status := 400, err := some .postIDAlreadyExists, logged := false } ∧
    getAllCategoriesErrResp .categoryNotFound =
      { status := 404, err := some .categoryNotFound, logged := false } ∧
    getCategoriesWithPublicPostsErrResp .postNotFound =
      { status := 404, err := some .postNotFound, logged := false } ∧
    updateAnalyticErrResp .analyticNotFound =
      { status := 404, err := some .analyticNotFound, logged := false } ∧
    deleteAnalyticErrResp .analyticNotFound =
      { status := 404, err := some .analyticNotFound, logged := false } ∧
    getAnalyticWithWordsErrResp .analyticNotFound =
      { status := 404, err := some .analyticNotFound, logged := false } ∧
    (∀ (s : AnalyticState) (i : Int) (u : AnalyticUpdate), u.IsEmpty = true →
      updateAnalyticCore s i (some u) =
        .resp { status := 400, err := some .emptyUpdate, logged := false } false s) ∧
    (∀ (s : AnalyticState) (i : Int) (keys : List (String × CtxVal)),
      keys.lookup "role" = none →
      getAnalyticWithWordsCore s i keys =
        .resp { status := 401, err := some .missingRole, logged := false } false s) ∧
    addCategoryErrResp .unexpected = { status := 500, err := some .unexpected, logged := true } ∧
    addAnalyticErrResp .unexpected = { status := 500, err := some .unexpected, logged := true } ∧
    updateAnalyticErrResp .unexpected = { status := 500, err := some .unexpected, logged := true } ∧
    deleteAnalyticErrResp .unexpected = { status := 500, err := some .unexpected, logged := true } ∧
    getAnalyticWithWordsErrResp .unexpected =
      { status := 500, err := some .unexpected, logged := true } ∧
    getAllCategoriesErrResp .unexpected =
      { status := 500, err := some .unexpected, logged := true } ∧
    getCategoriesWithPublicPostsErrResp .unexpected =
      { status := 500, err := some .unexpected, logged := true } := by
  refine ⟨rfl, rfl, rfl, rfl, rfl, rfl, rfl, rfl, ?_, ?_, rfl, rfl, rfl, rfl, rfl, rfl, rfl⟩
  · intro s i u h
    simp [updateAnalyticCore, h]
  · intro s i keys h
    simp [getAnalyticWithWordsCore, h]

/-- Witness for the amended C6: the two conditional clauses (empty update →
400, missing role → 401) at concrete inputs. -/
theorem transport_status_mapping_witness :
    updateAnalyticCore ⟨[], [], []⟩ 3 (some ⟨none, none, none⟩) =
      .resp { status := 400, err := some .emptyUpdate, logged := false } false ⟨[], [], []⟩ ∧
    getAnalyticWithWordsCore ⟨[], [], []⟩ 3 [] =
      .resp { status := 401, err := some .missingRole, logged := false } false ⟨[], [], []⟩ :=
  ⟨transport_status_mapping.2.2.2.2.2.2.2.2.1 ⟨[], [], []⟩ 3 ⟨none, none, none⟩ rfl,
   transport_status_mapping.2.2.2.2.2.2.2.2.2.1 ⟨[], [], []⟩ 3 [] rfl⟩

/-- C7 counterexample: the failure of parsing the id path parameter is
silently swallowed — "abc" fails `strconv.Atoi`, yet `deleteAnalytic`
proceeds with id 0 and answers 204 No Content, returning no error kind for
the failed parse. -/
theorem error_swallowed_counterexample :
    (atoi "abc").2 = false ∧
    deleteAnalyticHandler ⟨[5], [⟨0, 5, 0, 0⟩], []⟩ "abc" =
      .resp { status := 204, err := none, logged := false } true ⟨[5], [], []⟩ :=
  ⟨rfl, rfl⟩

/-- C7 amended: in `updateAnalytic`, `deleteAnalytic` and
`getAnalyticWithWordsByPostID` the id-parse failure is discarded (the
handler proceeds with whatever value `Atoi` returned, 0 on malformed input);
every other failing path returns exactly one error kind: each service error
surfaces as exactly that kind, and `deleteAnalytic` answers either 204 with
no error or the single `AnalyticNotFound` error. -/
theorem no_error_swallowed_except_id_parse :
    (∀ (s : AnalyticState) (p : String),
      deleteAnalyticHandler s p = deleteAnalyticCore s (atoi p).1) ∧
    (∀ (s : AnalyticState) (p : String) (b : Option AnalyticUpdate),
      updateAnalyticHandler s p b = updateAnalyticCore s (atoi p).1 b) ∧
    (∀ (s : AnalyticState) (p : String) (keys : List (String × CtxVal)),
      getAnalyticWithWordsHandler s p keys = getAnalyticWithWordsCore s (atoi p).1 keys) ∧
    atoi "abc" = (0, false) ∧
    (∀ e, (updateAnalyticErrResp e).err = some e) ∧
    (∀ e, (deleteAnalyticErrResp e).err = some e) ∧
    (∀ e, (getAnalyticWithWordsErrResp e).err = some e) ∧
    (∀ (s : AnalyticState) (i : Int),
      (∃ st, deleteAnalyticCore s i =
        .resp { status := 204, err := none, logged := false } true st) ∨
      deleteAnalyticCore s i = .resp (deleteAnalyticErrResp .analyticNotFound) true s) := by
  refine ⟨fun s p => rfl, fun s p b => rfl, fun s p keys => rfl, rfl,
    fun e => by cases e <;> rfl, fun e => by cases e <;> rfl,
    fun e => by cases e <;> rfl, ?_⟩
  intro s i
  by_cases hx : s.analytics.any (fun x => x.id == i) = true
  · exact Or.inl ⟨{ s with analytics := s.analytics.filter (fun x => x.id != i) },
      by simp [deleteAnalyticCore, DeleteAnalytic, hx]⟩
  · refine Or.inr ?_
    simp [deleteAnalyticCore, DeleteAnalytic, hx]

/-- Error kinds the AddAnalytic operation can yield (spec section 4.3 plus
the engine-level `Unexpected` class). -/
def addAnalyticSrvErrs : List ErrKind :=
  [.postIDAlreadyExists, .analyticDependencyNotFound, .unexpected]

/-- Error kinds the UpdateAnalytic operation can yield (spec section 4.3,
including the empty-update rejection of step 1). -/
def updateAnalyticSrvErrs : List ErrKind :=
  [.emptyUpdate, .postIDAlreadyExists, .analyticNotFound, .analyticDependencyNotFound,
   .unexpected]

/-- Error kinds the DeleteAnalytic operation can yield (spec section 4.3). -/
def deleteAnalyticSrvErrs : List ErrKind := [.analyticNotFound, .unexpected]

/-- Error kinds the GetAnalyticWithWords operation can yield (spec section
4.5, including the missing-role authorization failure). -/
def getAnalyticWithWordsSrvErrs : List ErrKind :=
  [.missingRole, .analyticNotFound, .unexpected]

/-- Error kinds the AddCategory operation can yield (spec section 4.1). -/
def addCategorySrvErrs : List ErrKind := [.categoryAlreadyExists, .unexpected]

/-- Error kinds the GetAllCategories operation can yield (spec section 4.1). -/
def getAllCategoriesSrvErrs : List ErrKind := [.categoryNotFound, .unexpected]

/-- Error kinds the GetCategoriesWithPublicPosts operation can yield (spec
section 4.5). -/
def getCategoriesWithPublicPostsSrvErrs : List ErrKind := [.postNotFound, .unexpected]

/-- Inversion: the modelled `AddAnalytic` only errors with the duplicate or
the dependency kind. -/
theorem AddAnalytic_error_kinds (s : AnalyticState) (x : Analytic) (e : ErrKind)
    (s' : AnalyticState) (h : AddAnalytic s x = (.error e, s')) :
    e = .postIDAlreadyExists ∨ e = .analyticDependencyNotFound := by
  unfold AddAnalytic at h
  split at h
  · simp only [Prod.mk.injEq, Except.error.injEq] at h
    exact Or.inl h.1.symm
  · split at h
    · simp only [Prod.mk.injEq, Except.error.injEq] at h
      exact Or.inr h.1.symm
    · simp at h

/-- Inversion: the modelled `UpdateAnalytic` only errors with the empty
update (and then the update really was empty), the duplicate, the missing
record, or the dependency kind. -/
theorem UpdateAnalytic_error_kinds (s : AnalyticState) (i : Int)
    (u : AnalyticUpdate) (e : ErrKind) (s' : AnalyticState)
    (h : UpdateAnalytic s i u = (.error e, s')) :
    (e = .emptyUpdate ∧ u.IsEmpty = true) ∨ e = .postIDAlreadyExists ∨
      e = .analyticNotFound ∨ e = .analyticDependencyNotFound := by
  unfold UpdateAnalytic at h
  split at h
  · rename_i hemp
    simp only [Prod.mk.injEq, Except.error.injEq] at h
    exact Or.inl ⟨h.1.symm, hemp⟩
  · split at h
    · simp only [Prod.mk.injEq, Except.error.injEq] at h
      exact Or.inr (Or.inr (Or.inl h.1.symm))
    · split at h
      · split at h
        · simp only [Prod.mk.injEq, Except.error.injEq] at h
          exact Or.inr (Or.inl h.1.symm)
        · split at h
          · simp only [Prod.mk.injEq, Except.error.injEq] at h
            exact Or.inr (Or.inr (Or.inr h.1.symm))
          · simp at h
      · simp at h

/-- Inversion: the modelled `DeleteAnalytic` only errors with the missing
record kind. -/
theorem DeleteAnalytic_error_kinds (s : AnalyticState) (i : Int) (e : ErrKind)
    (s' : AnalyticState) (h : DeleteAnalytic s i = (.error e, s')) :
    e = .analyticNotFound := by
  unfold DeleteAnalytic at h
  split at h
  · simp at h
  · simp only [Prod.mk.injEq, Except.error.injEq] at h
    exact h.1.symm

/-- Inversion: the modelled `GetAnalyticWithWords` only errors with the
missing record kind. -/
theorem GetAnalyticWithWords_error_kinds (s : AnalyticState) (i : Int)
    (role : String) (e : ErrKind) (h : GetAnalyticWithWords s i role = .error e) :
    e = .analyticNotFound := by
  unfold GetAnalyticWithWords at h
  split at h
  · simp only [Except.error.injEq] at h
    exact h.symm
  · simp at h

/-- Inversion: the modelled `AddCategory` only errors with the duplicate
kind. -/
theorem AddCategory_error_kinds (s : CatState) (t : String) (e : ErrKind)
    (s' : CatState) (h : AddCategory s t = (.error e, s')) :
    e = .categoryAlreadyExists := by
  unfold AddCategory at h
  split at h
  · simp only [Prod.mk.injEq, Except.error.injEq] at h
    exact h.1.symm
  · simp at h

/-- Inversion: the modelled `GetAllCategories` only errors with the
not-found kind. -/
theorem GetAllCategories_error_kinds (s : CatState) (e : ErrKind)
    (h : GetAllCategories s = .error e) : e = .categoryNotFound := by
  unfold GetAllCategories at h
  split at h
  · simp only [Except.error.injEq] at h
    exact h.symm
  · simp at h

/-- Inversion: the modelled `GetCategoriesWithPublicPosts` only errors with
the not-found kind. -/
theorem GetCategoriesWithPublicPosts_error_kinds (s : CatState) (e : ErrKind)
    (h : GetCategoriesWithPublicPosts s = .error e) : e = .postNotFound := by
  by_cases hp : (s.catPosts.filter (fun p => p.isPublic)).isEmpty = true
  · simp only [GetCategoriesWithPublicPosts, hp, if_true] at h
    simpa using h.symm
  · simp only [GetCategoriesWithPublicPosts, hp, if_false] at h
    simp at h

/-- Every error response of the `addAnalytic` handler is logged iff its kind
is `Unexpected`. -/
theorem addAnalyticHandler_err_logged (s : AnalyticState) (b : Option Analytic)
    (r : Resp) (c : Bool) (st : AnalyticState) (e : ErrKind)
    (h : addAnalyticHandler s b = .resp r c st) (hr : r.err = some e) :
    r.logged = (e == .unexpected) := by
  unfold addAnalyticHandler at h
  split at h
  · simp only [HOut.resp.injEq] at h
    rw [← h.1] at hr
    simp at hr
  · rename_i x
    split at h
    · rename_i e' s' heq
      simp only [HOut.resp.injEq] at h
      rw [← h.1] at hr ⊢
      rcases AddAnalytic_error_kinds s x e' s' heq with h1 | h1
      · subst h1
        have h2 : some ErrKind.postIDAlreadyExists = some e := hr
        obtain rfl := Option.some.inj h2
        decide
      · subst h1
        have h2 : some ErrKind.analyticDependencyNotFound = some e := hr
        obtain rfl := Option.some.inj h2
        decide
    · simp only [HOut.resp.injEq] at h
      rw [← h.1] at hr
      simp at hr

/-- Every error response of the `updateAnalytic` handler — including the
fail-fast empty-update 400 — is logged iff its kind is `Unexpected`. -/
theorem updateAnalyticHandler_err_logged (s : AnalyticState) (p : String)
    (b : Option AnalyticUpdate) (r : Resp) (c : Bool) (st : AnalyticState)
    (e : ErrKind) (h : updateAnalyticHandler s p b = .resp r c st)
    (hr : r.err = some e) : r.logged = (e == .unexpected) := by
  unfold updateAnalyticHandler updateAnalyticCore at h
  split at h
  · simp only [HOut.resp.injEq] at h
    rw [← h.1] at hr
    simp at hr
  · rename_i u
    split at h
    · simp only [HOut.resp.injEq] at h
      rw [← h.1] at hr ⊢
      have h2 : some ErrKind.emptyUpdate = some e := hr
      obtain rfl := Option.some.inj h2
      decide
    · rename_i hne
      split at h
      · rename_i e' s' heq
        simp only [HOut.resp.injEq] at h
        rw [← h.1] at hr ⊢
        rcases UpdateAnalytic_error_kinds s (atoi p).1 u e' s' heq with
          ⟨h1, h2⟩ | h1 | h1 | h1
        · exact absurd h2 hne
        · subst h1
          have h2 : some ErrKind.postIDAlreadyExists = some e := hr
          obtain rfl := Option.some.inj h2
          decide
        · subst h1
          have h2 : some ErrKind.analyticNotFound = some e := hr
          obtain rfl := Option.some.inj h2
          decide
        · subst h1
          have h2 : some ErrKind.analyticDependencyNotFound = some e := hr
          obtain rfl := Option.some.inj h2
          decide
      · simp only [HOut.resp.injEq] at h
        rw [← h.1] at hr
        simp at hr

/-- Every error response of the `deleteAnalytic` handler is logged iff its
kind is `Unexpected`. -/
theorem deleteAnalyticHandler_err_logged (s : AnalyticState) (p : String)
    (r : Resp) (c : Bool) (st : AnalyticState) (e : ErrKind)
    (h : deleteAnalyticHandler s p = .resp r c st) (hr : r.err = some e) :
    r.logged = (e == .unexpected) := by
  unfold deleteAnalyticHandler deleteAnalyticCore at h
  split at h
  · rename_i e' s' heq
    simp only [HOut.resp.injEq] at h
    rw [← h.1] at hr ⊢
    obtain rfl := DeleteAnalytic_error_kinds s (atoi p).1 e' s' heq
    have h2 : some ErrKind.analyticNotFound = some e := hr
    obtain rfl := Option.some.inj h2
    decide
  · simp only [HOut.resp.injEq] at h
    rw [← h.1] at hr
    simp at hr

/-- Every error response of the `getAnalyticWithWordsByPostID` handler —
including the missing-role 401 — is logged iff its kind is `Unexpected`. -/
theorem getAnalyticWithWordsHandler_err_logged (s : AnalyticState) (p : String)
    (keys : List (String × CtxVal)) (r : Resp) (c : Bool) (st : AnalyticState)
    (e : ErrKind) (h : getAnalyticWithWordsHandler s p keys = .resp r c st)
    (hr : r.err = some e) : r.logged = (e == .unexpected) := by
  unfold getAnalyticWithWordsHandler getAnalyticWithWordsCore at h
  split at h
  · simp only [HOut.resp.injEq] at h
    rw [← h.1] at hr ⊢
    have h2 : some ErrKind.missingRole = some e := hr
    obtain rfl := Option.some.inj h2
    decide
  · simp at h
  · rename_i role hlk
    split at h
    · rename_i e' heq
      simp only [HOut.resp.injEq] at h
      rw [← h.1] at hr ⊢
      obtain rfl := GetAnalyticWithWords_error_kinds s (atoi p).1 role e' heq
      have h2 : some ErrKind.analyticNotFound = some e := hr
      obtain rfl := Option.some.inj h2
      decide
    · simp only [HOut.resp.injEq] at h
      rw [← h.1] at hr
      simp at hr

/-- Every error response of the `addCategory` handler is logged iff its kind
is `Unexpected`. -/
theorem addCategoryHandler_err_logged (s : CatState) (b : Option String)
    (e : ErrKind) (hr : (addCategoryHandler s b).r.err = some e) :
    (addCategoryHandler s b).r.logged = (e == .unexpected) := by
  cases b with
  | none => simp [addCategoryHandler] at hr
  | some t =>
    rcases hA : AddCategory s t with ⟨res, s'⟩
    cases res with
    | error e' =>
      obtain rfl := AddCategory_error_kinds s t e' s' hA
      simp only [addCategoryHandler, hA] at hr ⊢
      have h2 : some ErrKind.categoryAlreadyExists = some e := hr
      obtain rfl := Option.some.inj h2
      decide
    | ok v =>
      simp only [addCategoryHandler, hA] at hr
      simp at hr

/-- Every error response of the `getAllCategories` handler is logged iff its
kind is `Unexpected`. -/
theorem getAllCategoriesHandler_err_logged (s : CatState) (e : ErrKind)
    (hr : (getAllCategoriesHandler s).r.err = some e) :
    (getAllCategoriesHandler s).r.logged = (e == .unexpected) := by
  cases hA : GetAllCategories s with
  | error e' =>
    obtain rfl := GetAllCategories_error_kinds s e' hA
    simp only [getAllCategoriesHandler, hA] at hr ⊢
    have h2 : some ErrKind.categoryNotFound = some e := hr
    obtain rfl := Option.some.inj h2
    decide
  | ok v =>
    simp only [getAllCategoriesHandler, hA] at hr
    simp at hr

/-- Every error response of the `getCategoriesWithPublicPosts` handler is
logged iff its kind is `Unexpected`. -/
theorem getCategoriesWithPublicPostsHandler_err_logged (s : CatState)
    (e : ErrKind) (hr : (getCategoriesWithPublicPostsHandler s).r.err = some e) :
    (getCategoriesWithPublicPostsHandler s).r.logged = (e == .unexpected) := by
  cases hA : GetCategoriesWithPublicPosts s with
  | error e' =>
    obtain rfl := GetCategoriesWithPublicPosts_error_kinds s e' hA
    simp only [getCategoriesWithPublicPostsHandler, hA] at hr ⊢
    have h2 : some ErrKind.postNotFound = some e := hr
    obtain rfl := Option.some.inj h2
    decide
  | ok v =>
    simp only [getCategoriesWithPublicPostsHandler, hA] at hr
    simp at hr

/-- C8: for every operation and every named domain error the operation can
yield — including the fail-fast `EmptyUpdate` of `updateAnalytic` and the
`MissingRole` of `getAnalyticWithWordsByPostID` — any response surfacing
that error carries it without any operator log record, and `Unexpected` is
the only error class whose handling logs (the catch-all 500 branch of each
handler). -/
theorem named_errors_unlogged :
    (∀ e ∈ addAnalyticSrvErrs, ∀ (s : AnalyticState) (b : Option Analytic)
      (r : Resp) (c : Bool) (st : AnalyticState),
      addAnalyticHandler s b = .resp r c st → r.err = some e →
      r.logged = (e == .unexpected)) ∧
    (∀ e ∈ updateAnalyticSrvErrs, ∀ (s : AnalyticState) (p : String)
      (b : Option AnalyticUpdate) (r : Resp) (c : Bool) (st : AnalyticState),
      updateAnalyticHandler s p b = .resp r c st → r.err = some e →
      r.logged = (e == .unexpected)) ∧
    (∀ e ∈ deleteAnalyticSrvErrs, ∀ (s : AnalyticState) (p : String)
      (r : Resp) (c : Bool) (st : AnalyticState),
      deleteAnalyticHandler s p = .resp r c st → r.err = some e →
      r.logged = (e == .unexpected)) ∧
    (∀ e ∈ getAnalyticWithWordsSrvErrs, ∀ (s : AnalyticState) (p : String)
      (keys : List (String × CtxVal)) (r : Resp) (c : Bool) (st : AnalyticState),
      getAnalyticWithWordsHandler s p keys = .resp r c st → r.err = some e →
      r.logged = (e == .unexpected)) ∧
    (∀ e ∈ addCategorySrvErrs, ∀ (s : CatState) (b : Option String),
      (addCategoryHandler s b).r.err = some e →
      (addCategoryHandler s b).r.logged = (e == .unexpected)) ∧
    (∀ e ∈ getAllCategoriesSrvErrs, ∀ s : CatState,
      (getAllCategoriesHandler s).r.err = some e →
      (getAllCategoriesHandler s).r.logged = (e == .unexpected)) ∧
    (∀ e ∈ getCategoriesWithPublicPostsSrvErrs, ∀ s : CatState,
      (getCategoriesWithPublicPostsHandler s).r.err = some e →
      (getCategoriesWithPublicPostsHandler s).r.logged = (e == .unexpected)) ∧
    addAnalyticErrResp .unexpected =
      { status := 500, err := some .unexpected, logged := true } ∧
    updateAnalyticErrResp .unexpected =
      { status := 500, err := some .unexpected, logged := true } ∧
    deleteAnalyticErrResp .unexpected =
      { status := 500, err := some .unexpected, logged := true } ∧
    getAnalyticWithWordsErrResp .unexpected =
      { status := 500, err := some .unexpected, logged := true } ∧
    addCategoryErrResp .unexpected =
      { status := 500, err := some .unexpected, logged := true } ∧
    getAllCategoriesErrResp .unexpected =
      { status := 500, err := some .unexpected, logged := true } ∧
    getCategoriesWithPublicPostsErrResp .unexpected =
      { status := 500, err := some .unexpected, logged := true } := by
  refine ⟨?_, ?_, ?_, ?_, ?_, ?_, ?_, rfl, rfl, rfl, rfl, rfl, rfl, rfl⟩
  · intro e _ s b r c st h hr
    exact addAnalyticHandler_err_logged s b r c st e h hr
  · intro e _ s p b r c st h hr
    exact updateAnalyticHandler_err_logged s p b r c st e h hr
  · intro e _ s p r c st h hr
    exact deleteAnalyticHandler_err_logged s p r c st e h hr
  · intro e _ s p keys r c st h hr
    exact getAnalyticWithWordsHandler_err_logged s p keys r c st e h hr
  · intro e _ s b hr
    exact addCategoryHandler_err_logged s b e hr
  · intro e _ s hr
    exact getAllCategoriesHandler_err_logged s e hr
  · intro e _ s hr
    exact getCategoriesWithPublicPostsHandler_err_logged s e hr

/-- Witness for C8: a concrete empty update surfaces `EmptyUpdate` without
logging and a concrete missing-role request surfaces `MissingRole` without
logging. -/
theorem named_errors_unlogged_witness :
    ({ status := 400, err := some ErrKind.emptyUpdate, logged := false } : Resp).logged =
      (ErrKind.emptyUpdate == ErrKind.unexpected) ∧
    ({ status := 401, err := some ErrKind.missingRole, logged := false } : Resp).logged =
      (ErrKind.missingRole == ErrKind.unexpected) :=
  ⟨named_errors_unlogged.2.1 .emptyUpdate (by decide) ⟨[], [], []⟩ "3"
     (some ⟨none, none, none⟩)
     { status := 400, err := some .emptyUpdate, logged := false } false ⟨[], [], []⟩ rfl rfl,
   named_errors_unlogged.2.2.2.1 .missingRole (by decide) ⟨[], [], []⟩ "3" []
     { status := 401, err := some .missingRole, logged := false } false ⟨[], [], []⟩ rfl rfl⟩

/-- C9: listing reads fail with a 404 not-found rather than answering an
empty collection — `getAllCategories` answers 404 `CategoryNotFound` on an
empty category store, and `getCategoriesWithPublicPosts` answers 404
`PostNotFound` when no public Posts exist at all. -/
theorem empty_listing_not_found :
    (∀ s : CatState, s.categories = [] →
      getAllCategoriesHandler s =
        ⟨{ status := 404, err := some .categoryNotFound, logged := false }, true, s⟩) ∧
    (∀ s : CatState, s.catPosts.filter (fun p => p.isPublic) = [] →
      getCategoriesWithPublicPostsHandler s =
        ⟨{ status := 404, err := some .postNotFound, logged := false }, true, s⟩) := by
  constructor
  · intro s h
    simp [getAllCategoriesHandler, GetAllCategories, getAllCategoriesErrResp, h]
  · intro s h
    simp [getCategoriesWithPublicPostsHandler, GetCategoriesWithPublicPosts,
      getCategoriesWithPublicPostsErrResp, h]

/-- Witness for C9: an empty category store answers 404, and a store whose
only Post is private answers 404 on the public aggregate. -/
theorem empty_listing_not_found_witness :
    getAllCategoriesHandler ⟨[], []⟩ =
      ⟨{ status := 404, err := some .categoryNotFound, logged := false }, true, ⟨[], []⟩⟩ ∧
    getCategoriesWithPublicPostsHandler ⟨["go"], [⟨1, "go", false⟩]⟩ =
      ⟨{ status := 404, err := some .postNotFound, logged := false }, true,
        ⟨["go"], [⟨1, "go", false⟩]⟩⟩ :=
  ⟨empty_listing_not_found.1 ⟨[], []⟩ rfl,
   empty_listing_not_found.2 ⟨["go"], [⟨1, "go", false⟩]⟩ rfl⟩

/-- C10: the role context value is converted with an unchecked string type
assertion — a request whose "role" key is bound to a string proceeds without
panicking, while a request whose "role" key is bound to a non-string value
makes the handler panic instead of returning an error kind. -/
theorem role_type_assertion_panics :
    (∀ (s : AnalyticState) (p : String) (keys : List (String × CtxVal)) (v : String),
      keys.lookup "role" = some (.str v) →
      getAnalyticWithWordsHandler s p keys ≠ .panicked) ∧
    (∀ (s : AnalyticState) (p : String) (keys : List (String × CtxVal)) (t : Nat),
      keys.lookup "role" = some (.other t) →
      getAnalyticWithWordsHandler s p keys = .panicked) := by
  constructor
  · intro s p keys v h
    unfold getAnalyticWithWordsHandler getAnalyticWithWordsCore
    rw [h]
    cases h2 : GetAnalyticWithWords s (atoi p).1 v with
    | error e => simp [h2]
    | ok a => simp [h2]
  · intro s p keys t h
    unfold getAnalyticWithWordsHandler getAnalyticWithWordsCore
    rw [h]

/-- Witness for C10: a string role does not panic; a non-string role does. -/
theorem role_type_assertion_panics_witness :
    getAnalyticWithWordsHandler ⟨[], [], []⟩ "1" [("role", CtxVal.str "admin")] ≠ .panicked ∧
    getAnalyticWithWordsHandler ⟨[], [], []⟩ "1" [("role", CtxVal.other 3)] = .panicked :=
  ⟨role_type_assertion_panics.1 ⟨[], [], []⟩ "1" [("role", CtxVal.str "admin")] "admin" rfl,
   role_type_assertion_panics.2 ⟨[], [], []⟩ "1" [("role", CtxVal.other 3)] 3 rfl⟩

end RequireService
